import Mathlib

/-!
Verification of the MultithreadedProxyWebServer repository.

The development shallowly embeds the cache and request-handling core of
the two C sources:

* namespace `Try`   — src/Final Version/try.c (the canonical iteration):
  cache_lookup, cache_add (with its in-place eviction loop),
  validate_url, validate_headers, parse_http_request,
  send_error_response, and the sequential data flow of handle_client.
* namespace `Proxy` — src/proxy_server.c: find_in_cache, add_to_cache,
  remove_from_cache, send_error_response.

Byte buffers are modeled as lists of characters; C string scanning
(strchr, strstr, strtoul) is modeled by the explicit search functions
below.  size_t and int arithmetic is modeled on Nat (Int for the signed
total_cache_size of proxy_server.c): every value reachable in the
program is far below 2^31 (cache ceiling 200 MiB, element ceiling
10 KiB), so machine wrap-around is not observable on the reachable
states the theorems speak about.  Mutex and semaphore calls serialize
the cache operations in the C sources; the embedding gives the
resulting sequential semantics directly, and the admission semaphore is
modeled separately as a transition system (`GateReach`).
-/

/-- Byte strings (C char buffers) as lists of characters. -/
abbrev Bytes := List Char

/-- Does `pat` occur at the very beginning of `s`?  Model of the inner
comparison loop of C strstr. -/
def strMatch : Bytes → Bytes → Bool
  | [], _ => true
  | _ :: _, [] => false
  | p :: ps, c :: cs => if p = c then strMatch ps cs else false

/-- Index of the first occurrence of `pat` inside `s` (model of C
strstr; `pat` is a nonempty literal at every use site). -/
def strFind (pat : Bytes) : Bytes → Option Nat
  | [] => if strMatch pat [] then some 0 else none
  | c :: cs =>
    if strMatch pat (c :: cs) then some 0
    else (strFind pat cs).map (· + 1)

/-- Index of the first occurrence of character `a` (model of C strchr). -/
def strFindChar (a : Char) : Bytes → Option Nat
  | [] => none
  | c :: cs => if c = a then some 0 else (strFindChar a cs).map (· + 1)

/-- Model of strtoul(s, &endptr, 10) at the call site of
parse_http_request: skip leading blanks, then read a decimal digit run.
Returns the value and whether at least one digit was consumed
(endptr different from the start). -/
def strtoul10 (s : Bytes) : Nat × Bool :=
  let t := s.dropWhile (· = ' ')
  let digits := t.takeWhile (fun c => '0' ≤ c ∧ c ≤ '9')
  (digits.foldl (fun acc c => acc * 10 + (c.toNat - '0'.toNat)) 0, ¬ digits.isEmpty)

namespace Try

/-- MAX_BYTES from try.c. -/
def MAX_BYTES : Nat := 4096

/-- MAX_ELEMENT_SIZE from try.c (10 KiB); config.max_element_size has
the same default value. -/
def MAX_ELEMENT_SIZE : Nat := 10 * 1024

/-- MAX_CACHE_SIZE from try.c (200 MiB); config.max_cache_size has the
same default value. -/
def MAX_CACHE_SIZE : Nat := 200 * 1048576

/-- struct cache_element of try.c.  The len field always equals the
length of data (cache_add copies exactly len bytes into data), so it is
represented by data.length; the next pointer is represented by the list
structure. -/
structure CacheElem where
  data : Bytes
  url : Bytes
  lru_time_track : Nat
deriving DecidableEq, Repr

/-- struct CacheStats of try.c together with the cache_head list. -/
structure CacheState where
  elems : List CacheElem
  total_hits : Nat
  total_misses : Nat
  current_size : Nat
deriving DecidableEq, Repr

/-- The scan loop of cache_lookup: first element whose url compares
equal (strcmp == 0). -/
def findElem (url : Bytes) : List CacheElem → Option CacheElem
  | [] => none
  | e :: r => if e.url = url then some e else findElem url r

/-- Convenience predicate: some element carries this url. -/
def containsKey (url : Bytes) (l : List CacheElem) : Bool :=
  (findElem url l).isSome

/-- cache_lookup of try.c: linear scan; on a hit the matching element is
returned and total_hits is incremented; on a miss total_misses is
incremented.  The scan neither reads the clock nor writes any element;
in particular lru_time_track is left untouched. -/
def cache_lookup (url : Bytes) (st : CacheState) : Option CacheElem × CacheState :=
  match findElem url st.elems with
  | some e => (some e, { st with total_hits := st.total_hits + 1 })
  | none => (none, { st with total_misses := st.total_misses + 1 })

/-- The update branch of cache_add: replace the payload of the first
element matching url and refresh its timestamp, in place. -/
def updateFirst (now : Nat) (url data : Bytes) : List CacheElem → List CacheElem
  | [] => []
  | e :: r =>
    if e.url = url then ⟨data, url, now⟩ :: r
    else e :: updateFirst now url data r

/-- The eviction scan inside cache_add: oldest_time starts at the
current time and to_evict at NULL; an element replaces the running
candidate only when its timestamp is strictly smaller, so the first
element (in list order) among those strictly older than `now` that
attains the minimum is selected. -/
def findEvictGo : List CacheElem → Nat → Option CacheElem → Option CacheElem
  | [], _, best => best
  | e :: r, oldest, best =>
    if e.lru_time_track < oldest then findEvictGo r e.lru_time_track (some e)
    else findEvictGo r oldest best

/-- Candidate selection of one round of the eviction loop of cache_add. -/
def findEvict (now : Nat) (elems : List CacheElem) : Option CacheElem :=
  findEvictGo elems now none

/-- The eviction while-loop of cache_add, lines 339-358 of try.c:
while current_size exceeds the ceiling, pick the oldest element and
subtract its length from current_size.  The C body frees the selected
node but never unlinks it from the list, so the element collection is
left unchanged here — exactly as in the source.  `none` models the
executions on which the C loop never terminates (no candidate older
than `now`, or a zero-length candidate); the fuel passed by cache_add
is sufficient for every terminating execution because the (unchanged)
candidate loses at least one byte of current_size per round. -/
def evictTry (now maxSize : Nat) : Nat → CacheState → Option CacheState
  | 0, st => if st.current_size ≤ maxSize then some st else none
  | fuel + 1, st =>
    if st.current_size ≤ maxSize then some st
    else
      match findEvict now st.elems with
      | none => none
      | some e =>
        evictTry now maxSize fuel
          { st with current_size := st.current_size - e.data.length }

/-- cache_add of try.c.  It first re-runs the lookup (which bumps a
counter); on an existing url it updates the element in place (payload,
timestamp) without touching current_size and without evicting; on a new
url it pushes a fresh element at the head, adds the payload length to
current_size, and runs the eviction loop.  There is no
MAX_ELEMENT_SIZE admission check anywhere in this function. -/
def cache_add (now maxSize : Nat) (url data : Bytes) (st : CacheState) :
    Option CacheState :=
  match findElem url st.elems with
  | some _ =>
    some { st with
            total_hits := st.total_hits + 1,
            elems := updateFirst now url data st.elems }
  | none =>
    let st1 : CacheState :=
      { elems := ⟨data, url, now⟩ :: st.elems,
        total_hits := st.total_hits,
        total_misses := st.total_misses + 1,
        current_size := st.current_size + data.length }
    evictTry now maxSize (st1.current_size + 1) st1

/-- validate_url of try.c.  The null test never fires (the argument is
a field of the request struct) and the strchr test for the terminator
always succeeds on a C string, so the effective conditions are the
length bound, the colon test and the double-slash test. -/
def validate_url (url : Bytes) : Bool :=
  if url.length > 2048 then false
  else if (strFindChar ':' url).isSome then false
  else if (strFind (("//").toList) url).isSome then false
  else true

/-- validate_headers of try.c: reject when any of the three forbidden
header names occurs anywhere in the header block. -/
def validate_headers (headers : Bytes) : Bool :=
  if (strFind (("Proxy-Connection").toList) headers).isSome then false
  else if (strFind (("X-Forwarded-For").toList) headers).isSome then false
  else if (strFind (("X-Proxy").toList) headers).isSome then false
  else true

/-- struct http_request of try.c.  The body pointer is modeled as the
suffix of the buffer after the blank line.  The host field is never
assigned by parse_http_request and never read by handle_client, so it
is omitted. -/
structure HttpRequest where
  method : Bytes
  url : Bytes
  content_type : Bytes
  content_length : Nat
  body : Option Bytes
deriving DecidableEq, Repr

/-- The zero-initialized request produced by the initial memset. -/
def req0 : HttpRequest := ⟨[], [], [], 0, none⟩

/-- parse_http_request of try.c.  The C function returns void and
communicates failure only through a log line, leaving the request
struct holding whatever fields were assigned before the early return;
the model returns that partially filled struct.  In particular a
Content-Length value over MAX_ELEMENT_SIZE is kept in the struct on the
early return, and a failed validate_headers check leaves method and url
assigned. -/
def parse_http_request (buffer : Bytes) : HttpRequest :=
  if buffer.length > MAX_BYTES - 1 then req0
  else
    match strFindChar ' ' buffer with
    | none => req0
    | some sp =>
      if sp > 16 then req0
      else
        let r1 : HttpRequest := { req0 with method := buffer.take sp }
        let rest := buffer.drop (sp + 1)
        match strFindChar ' ' rest with
        | none => r1
        | some ue =>
          if ue > 2048 then r1
          else
            let r2 : HttpRequest := { r1 with url := rest.take ue }
            if ¬ validate_url r2.url then r2
            else
              match strFind (("\r\n").toList) buffer with
              | none => r2
              | some hi =>
                if ¬ validate_headers (buffer.drop hi) then r2
                else
                  let r3 : HttpRequest :=
                    match strFind (("Content-Type: ").toList) buffer with
                    | none => r2
                    | some ci =>
                      let after := buffer.drop (ci + 14)
                      match strFind (("\r\n").toList) after with
                      | none => r2
                      | some ce => { r2 with content_type := after.take (min ce 127) }
                  let contLen :=
                    match strFind (("Content-Length: ").toList) buffer with
                    | none => none
                    | some li => some (strtoul10 (buffer.drop (li + 16)))
                  match contLen with
                  | some (v, ok) =>
                    let r4 : HttpRequest := { r3 with content_length := v }
                    if ¬ ok ∨ v > MAX_ELEMENT_SIZE then r4
                    else
                      match strFind (("\r\n\r\n").toList) buffer with
                      | none => r4
                      | some bi => { r4 with body := some (buffer.drop (bi + 4)) }
                  | none =>
                    match strFind (("\r\n\r\n").toList) buffer with
                    | none => r3
                    | some bi => { r3 with body := some (buffer.drop (bi + 4)) }

/-- send_error_response of try.c: the switch recognizes 405, 502 and
500 and rewrites every other status code to 500 before formatting the
fixed JSON document. -/
def send_error_response (status_code : Nat) : Bytes :=
  let p : Nat × String :=
    if status_code = 405 then (405, "Method Not Allowed")
    else if status_code = 502 then (502, "Bad Gateway")
    else if status_code = 500 then (500, "Internal Server Error")
    else (500, "Internal Server Error")
  (("HTTP/1.1 " ++ toString p.1 ++ " " ++ p.2 ++
    "\r\nContent-Type: application/json\r\nConnection: close\r\n\r\n\x7b\"error\": \"" ++
    p.2 ++ "\"\x7d\r\n")).toList

/-- The subset of ProxyConfig read by the request-handling core of
try.c (the remaining fields configure the transport layer, which is
external to the model). -/
structure ProxyConfig where
  max_cache_size : Nat
  max_element_size : Nat
deriving DecidableEq, Repr

/-- Outcome of the relay loop of handle_client: the chunks sent on to
the client, the running byte total, and the accumulation buffer used
for the later cache insert.  A chunk is appended to the accumulation
buffer only while the running total stays within max_element_size,
mirroring lines 469-485 of try.c. -/
structure RelayOut where
  sent : List Bytes
  total : Nat
  acc : Bytes
deriving DecidableEq, Repr

/-- The receive-and-relay loop of handle_client.  The chunk list models
the successive recv results from the upstream socket; an empty chunk or
the end of the list models recv returning 0 or less, which breaks the
loop. -/
def relayLoop (maxElem : Nat) : List Bytes → Nat → Bytes → RelayOut
  | [], total, acc => ⟨[], total, acc⟩
  | c :: cs, total, acc =>
    if c = [] then ⟨[], total, acc⟩
    else
      let t2 := total + c.length
      let acc2 := if t2 ≤ maxElem then acc ++ c else acc
      let r := relayLoop maxElem cs t2 acc2
      { r with sent := c :: r.sent }

/-- Observable outcome of one handle_client execution: the payloads
sent to the client in order, whether connect_to_server was invoked,
whether cache_lookup was invoked, and the cache state afterwards. -/
structure DispatchResult where
  sent : List Bytes
  upstreamContacted : Bool
  lookupDone : Bool
  state : CacheState
deriving DecidableEq, Repr

/-- The sequential data flow of handle_client in try.c, from the point
where the request bytes have been received.  The upstream argument
models connect_to_server and the subsequent recv results: `none` is a
failed connect (502 path), `some chunks` a successful connect with the
given recv sequence (the forward send is assumed to succeed; its
failure path only chooses a different error document and touches no
cache state).  The function result is `none` exactly when the eviction
loop inside cache_add would not terminate.  The accumulation buffer is
modeled per invocation; the static buffer of the source is a
concurrency artifact flagged in the design notes of the spec and does
not change the sequential data flow. -/
def handle_client (cfg : ProxyConfig) (now : Nat) (st : CacheState)
    (buffer : Bytes) (upstream : Option (List Bytes)) : Option DispatchResult :=
  let req := parse_http_request buffer
  if req.content_length > cfg.max_element_size then
    some ⟨[send_error_response 413], false, false, st⟩
  else
    match cache_lookup req.url st with
    | (some e, st1) => some ⟨[e.data], false, true, st1⟩
    | (none, st1) =>
      match upstream with
      | none => some ⟨[send_error_response 502], true, true, st1⟩
      | some chunks =>
        let r := relayLoop cfg.max_element_size chunks 0 []
        if r.total > 0 ∧ r.total ≤ cfg.max_element_size then
          match cache_add now cfg.max_cache_size req.url r.acc st1 with
          | some st2 => some ⟨r.sent, true, true, st2⟩
          | none => none
        else
          some ⟨r.sent, true, true, st1⟩

end Try

namespace Proxy

/-- MAX_ELEMENT_SIZE of proxy_server.c (same value as in try.c). -/
def MAX_ELEMENT_SIZE : Nat := 10 * 1024

/-- MAX_CACHE_SIZE of proxy_server.c (same value as in try.c). -/
def MAX_CACHE_SIZE : Nat := 200 * 1048576

/-- sizeof(cache_element) on an LP64 platform: three pointers, an int
padded to eight bytes, and a time_t. -/
def sizeof_cache_element : Nat := 40

/-- The cache_head list and the total_cache_size counter of
proxy_server.c; the counter is a C int, modeled on Int. -/
structure PCacheState where
  elems : List Try.CacheElem
  total_cache_size : Int
deriving DecidableEq, Repr

/-- find_in_cache of proxy_server.c: linear scan; the matching element
gets its lru_time_track refreshed to the current time.  There are no
hit or miss counters in this iteration. -/
def find_in_cache (now : Nat) (url : Bytes) :
    List Try.CacheElem → Option Try.CacheElem × List Try.CacheElem
  | [] => (none, [])
  | e :: r =>
    if e.url = url then (some { e with lru_time_track := now },
                         { e with lru_time_track := now } :: r)
    else
      let p := find_in_cache now url r
      (p.1, e :: p.2)

/-- The selection scan of remove_from_cache: index of the first element
(in list order) with the minimal lru_time_track, matching the strict
comparison against the running oldest pointer. -/
def oldestIdxGo : List Try.CacheElem → Nat → Nat → Nat → Nat
  | [], _, _, best => best
  | e :: r, i, oldestTime, best =>
    if e.lru_time_track < oldestTime then oldestIdxGo r (i + 1) e.lru_time_track i
    else oldestIdxGo r (i + 1) oldestTime best

/-- Index of the element remove_from_cache unlinks (the head when the
list is a singleton or when every later timestamp is not smaller). -/
def oldestIdx : List Try.CacheElem → Nat
  | [] => 0
  | e :: r => oldestIdxGo r 1 e.lru_time_track 0

/-- The accounted size of an entry in proxy_server.c:
len + sizeof(cache_element) + strlen(url) + 1. -/
def accounted (e : Try.CacheElem) : Nat :=
  e.data.length + sizeof_cache_element + e.url.length + 1

/-- remove_from_cache of proxy_server.c: unlink the element with the
smallest timestamp and subtract its accounted size; a no-op on the
empty cache. -/
def remove_from_cache (st : PCacheState) : PCacheState :=
  match st.elems with
  | [] => st
  | e :: r =>
    let i := oldestIdx (e :: r)
    let victim := (e :: r).getD i e
    { elems := (e :: r).eraseIdx i,
      total_cache_size := st.total_cache_size - (accounted victim : Int) }

/-- The eviction while-loop of add_to_cache, guarded by
total_cache_size + size > MAX_CACHE_SIZE; note that the guard uses the
raw payload size while the counter later grows by the accounted size.
Each round on a nonempty cache removes one element; on an empty cache
the C loop would spin forever, a state unreachable while the counter
equals the accounted sum, so the fuel equal to the element count covers
every terminating execution. -/
def evictProxy (size : Nat) : Nat → PCacheState → PCacheState
  | 0, st => st
  | fuel + 1, st =>
    if st.total_cache_size + (size : Int) > (MAX_CACHE_SIZE : Int) then
      evictProxy size fuel (remove_from_cache st)
    else st

/-- add_to_cache of proxy_server.c: refuse payloads over
MAX_ELEMENT_SIZE (returning 0), evict until the raw payload fits, then
push the new element and add its accounted size.  There is no
duplicate-key check in this iteration. -/
def add_to_cache (now : Nat) (data url : Bytes) (st : PCacheState) :
    PCacheState × Bool :=
  if data.length > MAX_ELEMENT_SIZE then (st, false)
  else
    let st1 := evictProxy data.length st.elems.length st
    ({ elems := ⟨data, url, now⟩ :: st1.elems,
       total_cache_size := st1.total_cache_size + (accounted ⟨data, url, now⟩ : Int) },
     true)

/-- send_error_response of proxy_server.c: fixed HTML documents for
400, 403, 404, 500 and 502; every other status code falls to the
default branch and receives the 500 document. -/
def send_error_response (status_code : Nat) : Bytes :=
  (if status_code = 400 then
    "HTTP/1.1 400 Bad Request\r\nContent-Type: text/html\r\nContent-Length: 35\r\n\r\n<html>400 - Bad Request</html>\r\n"
   else if status_code = 403 then
    "HTTP/1.1 403 Forbidden\r\nContent-Type: text/html\r\nContent-Length: 32\r\n\r\n<html>403 - Forbidden</html>\r\n"
   else if status_code = 404 then
    "HTTP/1.1 404 Not Found\r\nContent-Type: text/html\r\nContent-Length: 32\r\n\r\n<html>404 - Not Found</html>\r\n"
   else if status_code = 500 then
    "HTTP/1.1 500 Internal Server Error\r\nContent-Type: text/html\r\nContent-Length: 45\r\n\r\n<html>500 - Internal Server Error</html>\r\n"
   else if status_code = 502 then
    "HTTP/1.1 502 Bad Gateway\r\nContent-Type: text/html\r\nContent-Length: 35\r\n\r\n<html>502 - Bad Gateway</html>\r\n"
   else
    "HTTP/1.1 500 Internal Server Error\r\nContent-Type: text/html\r\nContent-Length: 45\r\n\r\n<html>500 - Internal Server Error</html>\r\n").toList

end Proxy

/-- State of the connection_semaphore together with the count of
handle_client instances currently between their sem_wait and their
sem_post. -/
structure GateState where
  permits : Nat
  active : Nat
deriving DecidableEq, Repr

/-- The admission-gate transition system of try.c: sem_init sets
MAX_CLIENTS permits (main, line 542); each handle_client performs one
sem_wait on entry (line 385), which only proceeds while a permit
remains, and exactly one sem_post on each of its exit paths (lines 393,
403, 416, 427, 437, 447, 496), every one of which is reached only after
the sem_wait.  A step is therefore either an acquire consuming a permit
or a release by one of the currently active handlers. -/
inductive GateReach (maxClients : Nat) : GateState → Prop where
  | start : GateReach maxClients ⟨maxClients, 0⟩
  | acquire (p a : Nat) : GateReach maxClients ⟨p + 1, a⟩ →
      GateReach maxClients ⟨p, a + 1⟩
  | release (p a : Nat) : GateReach maxClients ⟨p, a + 1⟩ →
      GateReach maxClients ⟨p + 1, a⟩

namespace Try

/-- Number of cache elements carrying a given url. -/
def countKey (url : Bytes) (l : List CacheElem) : Nat :=
  (l.filter (fun e => e.url = url)).length

/-- Concatenation of the relayed chunks: the full upstream response. -/
def concatChunks : List Bytes → Bytes
  | [] => []
  | c :: cs => c ++ concatChunks cs

end Try

namespace Try

theorem evictTry_of_le (now maxSize fuel : Nat) (st : CacheState)
    (h : st.current_size ≤ maxSize) : evictTry now maxSize fuel st = some st := by
  cases fuel <;> simp [evictTry, h]

theorem evictTry_some_le (now maxSize : Nat) :
    ∀ (fuel : Nat) (st st' : CacheState),
      evictTry now maxSize fuel st = some st' → st'.current_size ≤ maxSize := by
  intro fuel
  induction fuel with
  | zero =>
    intro st st' h
    by_cases hc : st.current_size ≤ maxSize
    · simp [evictTry, hc] at h
      rw [← h]
      exact hc
    · simp [evictTry, hc] at h
  | succ n ih =>
    intro st st' h
    by_cases hc : st.current_size ≤ maxSize
    · simp [evictTry, hc] at h
      rw [← h]
      exact hc
    · simp [evictTry, hc] at h
      cases he : findEvict now st.elems with
      | none => rw [he] at h; simp at h
      | some e => rw [he] at h; exact ih _ _ h

theorem findElem_none_of_not_contains (url : Bytes) (l : List CacheElem)
    (h : containsKey url l = false) : findElem url l = none := by
  cases he : findElem url l with
  | none => rfl
  | some e => rw [containsKey, he] at h; simp at h

theorem updateFirst_length (now : Nat) (url data : Bytes) :
    ∀ l : List CacheElem, (updateFirst now url data l).length = l.length := by
  intro l
  induction l with
  | nil => rfl
  | cons e r ih =>
    by_cases h : e.url = url <;> simp [updateFirst, h, ih]

theorem findElem_updateFirst (now : Nat) (url data : Bytes) :
    ∀ l : List CacheElem, containsKey url l = true →
      findElem url (updateFirst now url data l) = some ⟨data, url, now⟩ := by
  intro l
  induction l with
  | nil => intro h; simp [containsKey, findElem] at h
  | cons e r ih =>
    intro h
    by_cases he : e.url = url
    · simp [updateFirst, he, findElem]
    · simp only [containsKey, findElem, he, if_false] at h
      simp [updateFirst, he, findElem, ih h]

theorem countKey_updateFirst (now : Nat) (url data : Bytes) :
    ∀ l : List CacheElem,
      countKey url (updateFirst now url data l) = countKey url l := by
  intro l
  induction l with
  | nil => rfl
  | cons e r ih =>
    by_cases he : e.url = url
    · simp [updateFirst, he, countKey, List.filter]
    · simp only [updateFirst, he, if_false]
      simp only [countKey, List.filter] at ih ⊢
      simp [he, ih]

theorem containsKey_of_countKey_one (url : Bytes) :
    ∀ l : List CacheElem, countKey url l = 1 → containsKey url l = true := by
  intro l
  induction l with
  | nil => intro h; simp [countKey] at h
  | cons e r ih =>
    intro h
    by_cases he : e.url = url
    · simp [containsKey, findElem, he]
    · simp only [countKey, List.filter, he] at h
      simp only [decide_eq_true_eq, if_neg, decide_False] at h
      simp [containsKey, findElem, he]
      have := ih h
      rw [containsKey] at this
      exact this

end Try

/-- C1, counterexample.  cache_add of try.c performs no MAX_ELEMENT_SIZE
admission check: inserting a 10241-byte payload (one byte over the
10240-byte element ceiling) into the empty cache creates an entry and
raises current_size to 10241, so the insert operation itself does not
refuse oversized payloads. -/
theorem c1_counterexample :
    Try.MAX_ELEMENT_SIZE < 10241 ∧
    Try.cache_add 100 Try.MAX_CACHE_SIZE (['b']) (List.replicate 10241 'x')
        ⟨[], 0, 0, 0⟩
      = some ⟨[⟨List.replicate 10241 'x', ['b'], 100⟩], 0, 1, 10241⟩ := by
  constructor
  · decide
  · simp only [Try.cache_add, Try.findElem]
    rw [Try.evictTry_of_le]
    · simp only [List.length_replicate, Option.some.injEq, Try.CacheState.mk.injEq]
    · simp only [List.length_replicate, Try.MAX_CACHE_SIZE]
      norm_num

/-- C1, amended.  First conjunct: whenever a cache_add call (the
insert/evict cycle) completes, current_size is at most the cache
ceiling, provided it was so before the call.  Second conjunct: the
oversized-payload refusal lives in handle_client, not in cache_add —
when the accumulated upstream response exceeds max_element_size the
handler skips the cache insert, leaving the entry collection and
current_size unchanged. -/
theorem c1_amended_theorem :
    (∀ (now maxSize : Nat) (url data : Bytes) (st st' : Try.CacheState),
       st.current_size ≤ maxSize →
       Try.cache_add now maxSize url data st = some st' →
       st'.current_size ≤ maxSize) ∧
    (∀ (cfg : Try.ProxyConfig) (now : Nat) (st : Try.CacheState)
       (buffer : Bytes) (chunks : List Bytes) (r : Try.DispatchResult),
       Try.handle_client cfg now st buffer (some chunks) = some r →
       (Try.relayLoop cfg.max_element_size chunks 0 []).total > cfg.max_element_size →
       r.state.elems = st.elems ∧ r.state.current_size = st.current_size) := by
  constructor
  · intro now maxSize url data st st' hle h
    cases hf : Try.findElem url st.elems with
    | some e =>
      simp only [Try.cache_add, hf] at h
      rw [← Option.some.injEq] at h
      simp at h
      rw [← h]
      exact hle
    | none =>
      simp only [Try.cache_add, hf] at h
      exact Try.evictTry_some_le _ _ _ _ _ h
  · intro cfg now st buffer chunks r h htot
    by_cases hcl :
        (Try.parse_http_request buffer).content_length > cfg.max_element_size
    · simp only [Try.handle_client, if_pos hcl, Option.some.injEq] at h
      rw [← h]
      exact ⟨rfl, rfl⟩
    · simp only [Try.handle_client, if_neg hcl] at h
      cases hf : Try.findElem (Try.parse_http_request buffer).url st.elems with
      | some e =>
        simp only [Try.cache_lookup, hf, Option.some.injEq] at h
        rw [← h]
        exact ⟨rfl, rfl⟩
      | none =>
        simp only [Try.cache_lookup, hf] at h
        have hcond :
            ¬ ((Try.relayLoop cfg.max_element_size chunks 0 []).total > 0 ∧
               (Try.relayLoop cfg.max_element_size chunks 0 []).total
                 ≤ cfg.max_element_size) := by
          intro hc
          omega
        simp only [hcond, if_false, Option.some.injEq] at h
        rw [← h]
        exact ⟨rfl, rfl⟩

/-- C1, witness for the amended theorem: a one-byte insert into the
empty cache completes with current_size within a ceiling of ten, and a
three-byte upstream response against an element ceiling of one is
relayed without touching the cache entries. -/
theorem c1_amended_witness :
    ((⟨[], 0, 0, 0⟩ : Try.CacheState).current_size ≤ 10 ∧
     (⟨[⟨['x'], ['a'], 0⟩], 0, 1, 1⟩ : Try.CacheState).current_size ≤ 10) ∧
    ((Try.handle_client ⟨100, 1⟩ 0 ⟨[], 0, 0, 0⟩
        (("GET /q HTTP/1.1\r\n\r\n").toList) (some [[ 'a', 'b', 'c' ]])).map
          Try.DispatchResult.state
        = some ⟨[], 0, 1, 0⟩ ∧
     (⟨[], 0, 1, 0⟩ : Try.CacheState).elems = ([] : List Try.CacheElem) ∧
     (⟨[], 0, 1, 0⟩ : Try.CacheState).current_size = 0) := by
  refine ⟨⟨by decide, ?_⟩, by decide, ?_, ?_⟩
  · exact c1_amended_theorem.1 0 10 (['a']) (['x']) ⟨[], 0, 0, 0⟩ _ (by decide)
      (by decide)
  · exact (c1_amended_theorem.2 ⟨100, 1⟩ 0 ⟨[], 0, 0, 0⟩
      (("GET /q HTTP/1.1\r\n\r\n").toList) ([[ 'a', 'b', 'c' ]])
      ⟨[[ 'a', 'b', 'c' ]], true, true, ⟨[], 0, 1, 0⟩⟩ (by decide) (by decide)).1
  · exact (c1_amended_theorem.2 ⟨100, 1⟩ 0 ⟨[], 0, 0, 0⟩
      (("GET /q HTTP/1.1\r\n\r\n").toList) ([[ 'a', 'b', 'c' ]])
      ⟨[[ 'a', 'b', 'c' ]], true, true, ⟨[], 0, 1, 0⟩⟩ (by decide) (by decide)).2

/-- C2, evaluation at the failing input.  Cache holding key a (six
bytes, lastAccess 50, current_size 6); inserting key b (seven bytes) at
time 100 with a ten-byte ceiling overflows to 13 and triggers the
eviction loop.  The loop picks the oldest entry a and subtracts its six
bytes (13 to 7), but the final state still contains BOTH entries: the C
code frees the selected node without ever unlinking it from the list,
so the entry is not removed from the collection as the claim requires
(and the freed node stays reachable — a use-after-free in the source). -/
theorem c2_failing_eval :
    Try.cache_add 100 10 (['b']) (List.replicate 7 'y')
        ⟨[⟨List.replicate 6 'x', ['a'], 50⟩], 0, 0, 6⟩
      = some ⟨[⟨List.replicate 7 'y', ['b'], 100⟩,
               ⟨List.replicate 6 'x', ['a'], 50⟩], 0, 1, 7⟩ := by decide

/-- C3: cache_add on a key already present (exactly once, as in every
reachable cache) updates the entry in place — payload replaced,
lastAccess refreshed to now — leaving the entry count unchanged and the
key still unique. -/
theorem c3_update_in_place (now maxSize : Nat) (url data : Bytes)
    (st : Try.CacheState) (hone : Try.countKey url st.elems = 1) :
    ∃ st', Try.cache_add now maxSize url data st = some st' ∧
      st'.elems.length = st.elems.length ∧
      Try.findElem url st'.elems = some ⟨data, url, now⟩ ∧
      Try.countKey url st'.elems = 1 := by
  have hc : Try.containsKey url st.elems = true :=
    Try.containsKey_of_countKey_one url st.elems hone
  cases hf : Try.findElem url st.elems with
  | none => rw [Try.containsKey, hf] at hc; simp at hc
  | some e =>
    have hadd : Try.cache_add now maxSize url data st =
        some { st with total_hits := st.total_hits + 1,
                       elems := Try.updateFirst now url data st.elems } := by
      simp [Try.cache_add, hf]
    refine ⟨_, hadd, ?_, ?_, ?_⟩
    · simpa using Try.updateFirst_length now url data st.elems
    · simpa using Try.findElem_updateFirst now url data st.elems hc
    · have h2 := Try.countKey_updateFirst now url data st.elems
      simpa [h2] using hone

/-- C3, witness: updating the singleton cache entry for key k at time 7
keeps one entry, now carrying payload z with lastAccess 7. -/
theorem c3_witness :
    Try.countKey (['k']) ((⟨[⟨['o'], ['k'], 1⟩], 0, 0, 1⟩ :
        Try.CacheState)).elems = 1 ∧
    ∃ st', Try.cache_add 7 100 (['k']) (['z']) ⟨[⟨['o'], ['k'], 1⟩], 0, 0, 1⟩
        = some st' ∧
      st'.elems.length =
        ((⟨[⟨['o'], ['k'], 1⟩], 0, 0, 1⟩ : Try.CacheState)).elems.length ∧
      Try.findElem (['k']) st'.elems = some ⟨['z'], ['k'], 7⟩ ∧
      Try.countKey (['k']) st'.elems = 1 :=
  ⟨by decide, c3_update_in_place 7 100 (['k']) (['z']) _ (by decide)⟩

/-- C4, counterexample.  A cache_lookup hit on the singleton cache for
key a leaves the stored entry bearing lastAccess 5 — unchanged whatever
the current time is (cache_lookup never reads the clock) — while
total_hits is incremented.  The claim requires the hit to update
lastAccess to the current time, so a lookup performed at any time other
than 5 refutes it. -/
theorem c4_counterexample :
    (Try.cache_lookup (['a']) ⟨[⟨['d'], ['a'], 5⟩], 0, 0, 1⟩).1
        = some ⟨['d'], ['a'], 5⟩ ∧
    (Try.cache_lookup (['a']) ⟨[⟨['d'], ['a'], 5⟩], 0, 0, 1⟩).2
        = ⟨[⟨['d'], ['a'], 5⟩], 1, 0, 1⟩ := by decide

/-- C4, amended.  cache_lookup of try.c returns, on a hit, the first
matching entry and a state differing only in the incremented hit
counter — the entry collection, including every lastAccess, is
untouched (lastAccess is refreshed only by cache_add); on a miss it
returns none and increments only the miss counter. -/
theorem c4_amended_theorem :
    (∀ (url : Bytes) (st : Try.CacheState),
       Try.containsKey url st.elems = true →
       (Try.cache_lookup url st).1 = Try.findElem url st.elems ∧
       (Try.cache_lookup url st).2
         = { st with total_hits := st.total_hits + 1 }) ∧
    (∀ (url : Bytes) (st : Try.CacheState),
       Try.containsKey url st.elems = false →
       (Try.cache_lookup url st).1 = none ∧
       (Try.cache_lookup url st).2
         = { st with total_misses := st.total_misses + 1 }) := by
  constructor
  · intro url st h
    cases hf : Try.findElem url st.elems with
    | none => rw [Try.containsKey, hf] at h; simp at h
    | some e => simp [Try.cache_lookup, hf]
  · intro url st h
    have hf := Try.findElem_none_of_not_contains url st.elems h
    simp [Try.cache_lookup, hf]

/-- C4, witness for the amended theorem: a hit on key a bumps only the
hit counter, a lookup for the absent key q returns none. -/
theorem c4_amended_witness :
    Try.containsKey (['a'])
        ((⟨[⟨['d'], ['a'], 5⟩], 3, 4, 1⟩ : Try.CacheState)).elems = true ∧
    (Try.cache_lookup (['a']) ⟨[⟨['d'], ['a'], 5⟩], 3, 4, 1⟩).2
        = ⟨[⟨['d'], ['a'], 5⟩], 4, 4, 1⟩ ∧
    (Try.cache_lookup (['q']) ⟨[⟨['d'], ['a'], 5⟩], 3, 4, 1⟩).1 = none :=
  ⟨by decide,
   (c4_amended_theorem.1 (['a']) ⟨[⟨['d'], ['a'], 5⟩], 3, 4, 1⟩ (by decide)).2,
   (c4_amended_theorem.2 (['q']) ⟨[⟨['d'], ['a'], 5⟩], 3, 4, 1⟩ (by decide)).1⟩

/-- C5, evaluation at the failing input.  The POST request of the spec
parses with method POST, yet handle_client of try.c never inspects the
method: with the default configuration and an empty cache the request
reaches the upstream connector and the upstream payload OK is relayed
to the client — no 405 document is ever produced (the 405 branch of
send_error_response is dead code, unreferenced by handle_client). -/
theorem c5_failing_eval :
    (Try.parse_http_request
        (("POST /x HTTP/1.1\r\nHost: h\r\n\r\n").toList)).method
      = ("POST").toList ∧
    (Try.handle_client ⟨Try.MAX_CACHE_SIZE, Try.MAX_ELEMENT_SIZE⟩ 100
        ⟨[], 0, 0, 0⟩ (("POST /x HTTP/1.1\r\nHost: h\r\n\r\n").toList)
        (some [[ 'O', 'K' ]])).map
      (fun r => (r.upstreamContacted, r.sent))
      = some (true, [[ 'O', 'K' ]]) := by decide

/-- C6, evaluation at the failing input.  A request declaring
Content-Length 999999999 parses with that value, which exceeds the
10240-byte element ceiling, so handle_client takes the oversized branch
with no cache lookup and no upstream contact — but the bytes actually
sent to the client are the 500 Internal Server Error document, because
send_error_response of try.c has no 413 case and rewrites the status
argument to 500. -/
theorem c6_failing_eval :
    (Try.parse_http_request
        (("GET /y HTTP/1.1\r\nContent-Length: 999999999\r\n\r\n").toList)
      ).content_length = 999999999 ∧
    (Try.handle_client ⟨Try.MAX_CACHE_SIZE, Try.MAX_ELEMENT_SIZE⟩ 100
        ⟨[], 0, 0, 0⟩
        (("GET /y HTTP/1.1\r\nContent-Length: 999999999\r\n\r\n").toList)
        (some [[ 'o', 'k' ]])).map
      (fun r => (r.sent, r.upstreamContacted, r.lookupDone))
      = some ([Try.send_error_response 500], false, false) ∧
    strMatch (("HTTP/1.1 500 Internal Server Error").toList)
      (Try.send_error_response 413) = true := by decide

/-- C7, evaluation at the failing input.  A request carrying an
X-Forwarded-For header is detected by validate_headers, but
parse_http_request only logs and returns, so handle_client still
performs the cache lookup on the already-parsed url and still contacts
the upstream connector — the request is not rejected before the cache
or the upstream. -/
theorem c7_failing_eval :
    Try.validate_headers
        ((("GET /a HTTP/1.1\r\nX-Forwarded-For: 1.2.3.4\r\n\r\n").toList).drop 15)
      = false ∧
    (Try.handle_client ⟨Try.MAX_CACHE_SIZE, Try.MAX_ELEMENT_SIZE⟩ 100
        ⟨[], 0, 0, 0⟩
        (("GET /a HTTP/1.1\r\nX-Forwarded-For: 1.2.3.4\r\n\r\n").toList)
        (some [[ 'o', 'k' ]])).map
      (fun r => (r.lookupDone, r.upstreamContacted))
      = some (true, true) := by decide

/-- C9: on every reachable state of the admission-gate transition
system, the number of handle_client instances between their sem_wait
and their sem_post is at most maxClients (the semaphore count plus the
active count is invariant). -/
theorem c9_admission_bound (maxClients : Nat) (st : GateState)
    (h : GateReach maxClients st) : st.active ≤ maxClients := by
  have hinv : ∀ s, GateReach maxClients s → s.permits + s.active = maxClients := by
    intro s hs
    induction hs with
    | start => simp
    | acquire p a _ ih => simp at ih ⊢; omega
    | release p a _ ih => simp at ih ⊢; omega
  have := hinv st h
  omega

/-- C9, witness: with two permits, the state after one acquire is
reachable and has one active handler, within the bound. -/
theorem c9_admission_witness :
    GateReach 2 ⟨1, 1⟩ ∧ (⟨1, 1⟩ : GateState).active ≤ 2 :=
  have hr : GateReach 2 ⟨1, 1⟩ := GateReach.acquire 1 0 GateReach.start
  ⟨hr, c9_admission_bound 2 ⟨1, 1⟩ hr⟩

/-- C10: both send_error_response implementations rewrite every status
code outside their enumerated cases to the 500 document.  For try.c
(the canonical version) the enumerated cases are 405, 502 and 500, so
in particular 413 and 400 are rewritten; every output of the function
is one of the three documents, hence no client can ever receive a 413
or 400 status line from it.  For proxy_server.c the enumerated cases
are 400, 403, 404, 500 and 502. -/
theorem c10_error_rewrite :
    (∀ c : Nat, c ≠ 405 → c ≠ 502 → c ≠ 500 →
       Try.send_error_response c = Try.send_error_response 500) ∧
    (∀ c : Nat,
       Try.send_error_response c = Try.send_error_response 405 ∨
       Try.send_error_response c = Try.send_error_response 502 ∨
       Try.send_error_response c = Try.send_error_response 500) ∧
    (∀ c : Nat,
       strMatch (("HTTP/1.1 413").toList) (Try.send_error_response c) = false ∧
       strMatch (("HTTP/1.1 400").toList) (Try.send_error_response c) = false) ∧
    (∀ c : Nat, c ≠ 400 → c ≠ 403 → c ≠ 404 → c ≠ 500 → c ≠ 502 →
       Proxy.send_error_response c = Proxy.send_error_response 500) := by
  refine ⟨?_, ?_, ?_, ?_⟩
  · intro c h1 h2 h3
    simp [Try.send_error_response, h1, h2, h3]
  · intro c
    by_cases h1 : c = 405
    · subst h1; left; rfl
    · by_cases h2 : c = 502
      · subst h2; right; left; rfl
      · by_cases h3 : c = 500
        · subst h3; right; right; rfl
        · right; right; simp [Try.send_error_response, h1, h2, h3]
  · intro c
    by_cases h1 : c = 405
    · subst h1; exact ⟨by decide, by decide⟩
    · by_cases h2 : c = 502
      · subst h2; exact ⟨by decide, by decide⟩
      · by_cases h3 : c = 500
        · subst h3; exact ⟨by decide, by decide⟩
        · constructor
          · rw [show Try.send_error_response c = Try.send_error_response 500 by
              simp [Try.send_error_response, h1, h2, h3]]
            decide
          · rw [show Try.send_error_response c = Try.send_error_response 500 by
              simp [Try.send_error_response, h1, h2, h3]]
            decide
  · intro c h1 h2 h3 h4 h5
    simp [Proxy.send_error_response, h1, h2, h3, h4, h5]

theorem relayLoop_all (maxE : Nat) :
    ∀ (cs : List Bytes) (t : Nat) (acc : Bytes),
      (∀ c ∈ cs, c ≠ []) →
      t + (Try.concatChunks cs).length ≤ maxE →
      Try.relayLoop maxE cs t acc
        = ⟨cs, t + (Try.concatChunks cs).length, acc ++ Try.concatChunks cs⟩ := by
  intro cs
  induction cs with
  | nil =>
    intro t acc _ _
    simp [Try.relayLoop, Try.concatChunks]
  | cons c cs ih =>
    intro t acc hne hle
    have hc : c ≠ [] := hne c (List.mem_cons_self c cs)
    have hlen : (Try.concatChunks (c :: cs)).length
        = c.length + (Try.concatChunks cs).length := by
      simp [Try.concatChunks]
    have h2 : t + c.length + (Try.concatChunks cs).length ≤ maxE := by
      omega
    have ht2 : t + c.length ≤ maxE := by omega
    have hr := ih (t + c.length) (acc ++ c)
      (fun d hd => hne d (List.mem_cons_of_mem c hd)) h2
    simp only [Try.relayLoop, if_neg hc, if_pos ht2, hr]
    simp [Try.concatChunks, Try.RelayOut.mk.injEq, List.append_assoc]
    omega

theorem concatChunks_pos (cs : List Bytes) (hne : cs ≠ [])
    (hall : ∀ c ∈ cs, c ≠ []) : 0 < (Try.concatChunks cs).length := by
  cases cs with
  | nil => exact absurd rfl hne
  | cons c r =>
    have hc : c ≠ [] := hall c (List.mem_cons_self c r)
    have : 0 < c.length := List.length_pos.mpr hc
    simp [Try.concatChunks]
    omega

/-- C8: a GET whose parsed request passes the size gate, whose target
is absent from the cache, and whose upstream response (a nonempty
sequence of nonempty chunks) fits both the element ceiling and the
remaining cache budget (so the insert evicts nothing), is relayed and
inserted under the target url; a second identical request, at any later
time and regardless of upstream availability, is then answered from the
cache with exactly the originally cached payload, with no upstream
contact, the only state change being the hit counter. -/
theorem c8_round_trip (cfg : Try.ProxyConfig) (now1 now2 : Nat)
    (st0 : Try.CacheState) (buffer : Bytes) (chunks : List Bytes)
    (up2 : Option (List Bytes))
    (_hget : (Try.parse_http_request buffer).method = ("GET").toList)
    (hcl : (Try.parse_http_request buffer).content_length ≤ cfg.max_element_size)
    (hmiss : Try.containsKey (Try.parse_http_request buffer).url st0.elems = false)
    (hne : chunks ≠ []) (hall : ∀ c ∈ chunks, c ≠ [])
    (hsz : (Try.concatChunks chunks).length ≤ cfg.max_element_size)
    (hfit : st0.current_size + (Try.concatChunks chunks).length
              ≤ cfg.max_cache_size) :
    Try.handle_client cfg now1 st0 buffer (some chunks)
      = some ⟨chunks, true, true,
          ⟨⟨Try.concatChunks chunks,
             (Try.parse_http_request buffer).url, now1⟩ :: st0.elems,
           st0.total_hits, st0.total_misses + 1 + 1,
           st0.current_size + (Try.concatChunks chunks).length⟩⟩ ∧
    Try.handle_client cfg now2
        ⟨⟨Try.concatChunks chunks,
           (Try.parse_http_request buffer).url, now1⟩ :: st0.elems,
         st0.total_hits, st0.total_misses + 1 + 1,
         st0.current_size + (Try.concatChunks chunks).length⟩
        buffer up2
      = some ⟨[Try.concatChunks chunks], false, true,
          ⟨⟨Try.concatChunks chunks,
             (Try.parse_http_request buffer).url, now1⟩ :: st0.elems,
           st0.total_hits + 1, st0.total_misses + 1 + 1,
           st0.current_size + (Try.concatChunks chunks).length⟩⟩ := by
  have hnot : ¬ ((Try.parse_http_request buffer).content_length
      > cfg.max_element_size) := not_lt.mpr hcl
  have hf0 : Try.findElem (Try.parse_http_request buffer).url st0.elems
      = none := Try.findElem_none_of_not_contains _ _ hmiss
  have hrel := relayLoop_all cfg.max_element_size chunks 0 [] hall
    (by simpa using hsz)
  have hpos : 0 < (Try.concatChunks chunks).length :=
    concatChunks_pos chunks hne hall
  constructor
  · simp only [Try.handle_client, if_neg hnot, Try.cache_lookup, hf0, hrel]
    simp only [Nat.zero_add, List.nil_append, gt_iff_lt]
    rw [if_pos ⟨hpos, hsz⟩]
    simp only [Try.cache_add, hf0]
    rw [Try.evictTry_of_le]
    simpa using hfit
  · simp [Try.handle_client, hnot, Try.cache_lookup, Try.findElem]

/-- C8, witness: a concrete GET round trip — first request relays and
caches the two-byte payload OK, second request is served from the cache
with no upstream contact. -/
theorem c8_round_trip_witness :
    Try.handle_client ⟨100, 50⟩ 5 ⟨[], 0, 0, 0⟩
        (("GET /a HTTP/1.1\r\nHost: h\r\n\r\n").toList) (some [[ 'O', 'K' ]])
      = some ⟨[[ 'O', 'K' ]], true, true,
          ⟨[⟨[ 'O', 'K' ],
             (Try.parse_http_request
               (("GET /a HTTP/1.1\r\nHost: h\r\n\r\n").toList)).url, 5⟩],
           0, 0 + 1 + 1, 0 + 2⟩⟩ ∧
    Try.handle_client ⟨100, 50⟩ 9
        ⟨[⟨[ 'O', 'K' ],
           (Try.parse_http_request
             (("GET /a HTTP/1.1\r\nHost: h\r\n\r\n").toList)).url, 5⟩],
         0, 0 + 1 + 1, 0 + 2⟩
        (("GET /a HTTP/1.1\r\nHost: h\r\n\r\n").toList) none
      = some ⟨[[ 'O', 'K' ]], false, true,
          ⟨[⟨[ 'O', 'K' ],
             (Try.parse_http_request
               (("GET /a HTTP/1.1\r\nHost: h\r\n\r\n").toList)).url, 5⟩],
           0 + 1, 0 + 1 + 1, 0 + 2⟩⟩ :=
  c8_round_trip ⟨100, 50⟩ 5 9 ⟨[], 0, 0, 0⟩
    (("GET /a HTTP/1.1\r\nHost: h\r\n\r\n").toList) ([[ 'O', 'K' ]]) none
    (by decide) (by decide) (by decide) (by decide)
    (by decide) (by decide) (by decide)

/-- C10, witness: status 413, which handle_client of try.c requests on
the oversized path, is rewritten to the 500 document by both
implementations, and the try.c output for 413 never carries a 413
status line. -/
theorem c10_error_rewrite_witness :
    Try.send_error_response 413 = Try.send_error_response 500 ∧
    strMatch (("HTTP/1.1 413").toList) (Try.send_error_response 413) = false ∧
    Proxy.send_error_response 413 = Proxy.send_error_response 500 :=
  ⟨c10_error_rewrite.1 413 (by decide) (by decide) (by decide),
   (c10_error_rewrite.2.2.1 413).1,
   c10_error_rewrite.2.2.2 413 (by decide) (by decide) (by decide) (by decide)
     (by decide)⟩

